import Mathlib

/-!
Verification of the TLE (Two-Line Element) decoding library `src/tle.js`.

Shallow-embedding conventions, used throughout this file:

* JavaScript numbers are modelled as exact rationals `ℚ`.  The claims under
  verification concern the structure of the computations (which branch is
  taken, which value is returned, cache behaviour), not IEEE-754 rounding,
  and none of the verified statements exercises double rounding.
* `NaN` is modelled explicitly (type `JsNum`) where the source can produce
  it (the checksum computation); functions that `throw` return `Except`.
* External primitives (the satellite.js propagator, `Math.sqrt`) are fields
  of a `SatJS` structure: the source treats them as black boxes and so do we.
* JS strings are Lean `String`s; the few string primitives the source uses
  (`trim`, `split`, `substr`, character access) are modelled on `toList`.
-/

/-- The set of whitespace characters relevant to JS `trim`/`parseFloat`
(ASCII subset; the source lines only ever contain ASCII). -/
def jsWhitespace (c : Char) : Bool :=
  c = ' ' || c = '\t' || c = '\n' || c = '\r' || c = '\x0b' || c = '\x0c'

/-- JS `String.prototype.trim`. -/
def jsTrim (s : String) : String :=
  String.mk (((s.toList.dropWhile jsWhitespace).reverse.dropWhile jsWhitespace).reverse)

/-- JS `String.prototype.substr(start, length)` for non-negative arguments. -/
def jsSubstr (s : String) (start len : Nat) : String :=
  String.mk ((s.toList.drop start).take len)

/-- Numeric value of a digit character list, most significant first. -/
def natOfDigits (l : List Char) : Nat :=
  l.foldl (fun n c => 10 * n + (c.toNat - 48)) 0

/-- Optional sign followed by digits; returns the value and the unconsumed
rest, or `none` when no digits follow.  Models the exponent digits of the
JS `parseFloat` grammar. -/
def parseSignedDigits (l : List Char) : Option (Int × List Char) :=
  match l with
  | '+' :: t =>
      let d := t.takeWhile Char.isDigit
      if d.isEmpty then none else some ((natOfDigits d : Int), t.dropWhile Char.isDigit)
  | '-' :: t =>
      let d := t.takeWhile Char.isDigit
      if d.isEmpty then none else some (-(natOfDigits d : Int), t.dropWhile Char.isDigit)
  | t =>
      let d := t.takeWhile Char.isDigit
      if d.isEmpty then none else some ((natOfDigits d : Int), t.dropWhile Char.isDigit)

/-- Optional exponent part (`e`/`E`, optional sign, digits).  When no digit
follows the `e`, `parseFloat` stops before it (exponent 0, `e` unconsumed). -/
def parseExponent (l : List Char) : Int × List Char :=
  match l with
  | 'e' :: t =>
      (match parseSignedDigits t with
       | some (e, r) => (e, r)
       | none => (0, 'e' :: t))
  | 'E' :: t =>
      (match parseSignedDigits t with
       | some (e, r) => (e, r)
       | none => (0, 'E' :: t))
  | t => (0, t)

/-- Unsigned decimal literal (digits, optional `.` digits, optional
exponent): value plus unconsumed rest; `none` when no digit is present.
This is the core of the JS `parseFloat` grammar. -/
def parseFloatCore (l : List Char) : Option (ℚ × List Char) :=
  let intPart := l.takeWhile Char.isDigit
  let r1 := l.dropWhile Char.isDigit
  let fr : List Char × List Char :=
    match r1 with
    | '.' :: t => (t.takeWhile Char.isDigit, t.dropWhile Char.isDigit)
    | t => ([], t)
  if intPart.isEmpty && fr.1.isEmpty then none
  else
    let er := parseExponent fr.2
    some (((natOfDigits intPart : ℚ) + (natOfDigits fr.1 : ℚ) / (10 : ℚ) ^ fr.1.length)
            * (10 : ℚ) ^ er.1, er.2)

/-- Magnitudes at or beyond `2^1024` overflow a double to `±Infinity`,
which `Number.isFinite` rejects; modelled as `none`.  (The numeral is
`2^1024`, written out so that closed evaluations reduce cheaply.) -/
def maxDoubleBound : ℚ := 179769313486231590772930519078902473361797697894230657273430081157732675805500963132708477322407536021120113879871393357658789768814416622492847430639474124377767893424865485276302219601246094119453082952085005768838150682342462881473913110540827237163350510684586298239947245938479716304835356329624224137216

/-- JS `parseFloat`: skip leading whitespace, optional sign, then the
longest decimal-literal prefix; `none` models `NaN` (no digits at all) and
the non-finite overflow case.  (The string `"Infinity"` also yields a
non-finite value in JS; both are `none` here, and the only consumer of this
function treats the two identically via `Number.isFinite`.) -/
def jsParseFloat (s : String) : Option ℚ :=
  let l := s.toList.dropWhile jsWhitespace
  let signed : ℚ × List Char :=
    match l with
    | '+' :: t => (1, t)
    | '-' :: t => (-1, t)
    | t => (1, t)
  match parseFloatCore signed.2 with
  | none => none
  | some (v, _) =>
      let r := signed.1 * v
      if maxDoubleBound ≤ |r| then none else some r

/-- Definition following the spec words of claim C3: the *whole* substring
must be a base-10 floating-point numeral (after optional leading
whitespace) for the parse to succeed.  Used only to compare the claim
against the source's `parseFloat` (longest-prefix) behaviour. -/
def strictParseFloat (s : String) : Option ℚ :=
  let l := s.toList.dropWhile jsWhitespace
  let signed : ℚ × List Char :=
    match l with
    | '+' :: t => (1, t)
    | '-' :: t => (-1, t)
    | t => (1, t)
  match parseFloatCore signed.2 with
  | none => none
  | some (v, rest) =>
      if rest.isEmpty then
        let r := signed.1 * v
        if maxDoubleBound ≤ |r| then none else some r
      else none

/-! ## TleParser (`parseTLE`, src/tle.js:176-219) -/

/-- The canonical record produced by `parseTLE`: a satellite name and the
array of (trimmed) lines.  In the source this is a plain object
`{ name, arr }`. -/
structure ParsedTLE where
  name : String
  arr : List String
deriving DecidableEq

/-- The input shapes `parseTLE` accepts without throwing: a newline-joined
string, an array of line strings, or an object that already carries a
(necessarily truthy) `arr` field.  Any other JS value makes `parseTLE`
throw `InvalidInputType`; such values are outside this type. -/
inductive TLEInput
  | str (s : String)
  | arr (lines : List String)
  | parsed (p : ParsedTLE)
deriving DecidableEq

/-- Common tail of `parseTLE` on the line array (src/tle.js:199-218): a
third line means the first is the satellite name and is removed, otherwise
the name defaults to `Unknown`; every remaining line is trimmed. -/
def parseTLEArr (tleArr : List String) : ParsedTLE :=
  if tleArr.length > 2 then
    { name := tleArr.getD 0 "", arr := (tleArr.drop 1).map jsTrim }
  else
    { name := "Unknown", arr := tleArr.map jsTrim }

/-- `parseTLE` (src/tle.js:176-219).  An input that is an object with an
`arr` field is returned unchanged (arrays are always truthy in JS, so the
check `typeof tle === 'object' && tle.arr` succeeds for every
`ParsedTLE`).  Otherwise the input is split into lines and normalized by
`parseTLEArr`. -/
def parseTLE (tle : TLEInput) : ParsedTLE :=
  match tle with
  | .parsed p => p
  | .str s => parseTLEArr (s.splitOn "\n")
  | .arr lines => parseTLEArr lines

/-! ## ChecksumValidator (`tleLineChecksum`, src/tle.js:262-287) -/

/-- A JS number that is either an integer value or `NaN`.  The checksum
computation can produce `NaN` because the `reduce` call has no initial
accumulator. -/
inductive JsNum
  | nan
  | int (n : Int)
deriving DecidableEq

/-- JS `parseInt` applied to a one-character string: a digit parses to its
value, everything else (including `'-'`, `'+'`, `' '`) gives `NaN`. -/
def charParseInt (c : Char) : Option Int :=
  if c.isDigit then some ((c.toNat : Int) - 48) else none

/-- JS `ToNumber` coercion of a one-character string (applied implicitly by
`%` when the `reduce` result is still a raw character): digits parse to
their value, whitespace coerces to `0`, everything else to `NaN`. -/
def charToNumber (c : Char) : Option Int :=
  if c.isDigit then some ((c.toNat : Int) - 48)
  else if jsWhitespace c then some 0
  else none

/-- One step of the `reduce` callback in `tleLineChecksum`
(src/tle.js:272-284): `parsedVal = parseInt(val)`, `parsedSum =
parseInt(sum)` (the identity on an integer accumulator, `NaN` on `NaN`);
digits are added, `'-'` adds one, everything else leaves the sum. -/
def checksumStep (sum : JsNum) (c : Char) : JsNum :=
  match charParseInt c, sum with
  | some v, .int s => .int (s + v)
  | some _, .nan => .nan
  | none, s =>
      if c = '-' then
        (match s with
         | .int n => .int (n + 1)
         | .nan => .nan)
      else s

/-- `tleLineChecksum` (src/tle.js:262-287).  The trailing (stored checksum)
character is dropped; an empty remainder throws.  The `reduce` over the
remaining characters has *no* initial value: a single remaining character
is returned raw and coerced by `% 10` (`charToNumber`), and with two or
more characters the first seeds the accumulator through `parseInt`
(`charParseInt`), so a non-digit first character poisons the sum to
`NaN`. -/
def tleLineChecksum (tleLine : String) : Except String JsNum :=
  match tleLine.toList.dropLast with
  | [] => .error "Character array empty!"
  | [c] =>
      .ok (match charToNumber c with
           | some n => .int (n % 10)
           | none => .nan)
  | c :: rest =>
      let init : JsNum :=
        match charParseInt c with
        | some v => .int v
        | none => .nan
      .ok (match rest.foldl checksumStep init with
           | .int n => .int (n % 10)
           | .nan => .nan)

/-- The per-character contribution stated by the spec: a digit contributes
its value, `'-'` contributes 1, everything else 0.  (Spec-side definition
for claim C1.) -/
def specContrib (c : Char) : Int :=
  if c.isDigit then (c.toNat : Int) - 48
  else if c = '-' then 1
  else 0

/-- The checksum sum stated by the spec, before the final `% 10`: sum of
`specContrib` over the line with its trailing character dropped.
(Spec-side definition for claim C1.) -/
def specChecksumSum (line : String) : Int :=
  (line.toList.dropLast).foldl (fun s c => s + specContrib c) 0

/-! ## FieldAccessor (`createTLEGetters`, src/tle.js:292-317) -/

/-- A named TLE field: 0-based column offset and column count
(src/tle.js:19-167). -/
structure FieldSpec where
  start : Nat
  length : Nat
deriving DecidableEq

/-- The result of a field getter: the `parseFloat` value when finite,
otherwise the raw substring. -/
inductive FieldValue
  | num (q : ℚ)
  | str (s : String)
deriving DecidableEq

/-- The getter body synthesized by `createTLEGetters` (src/tle.js:298-314)
for a field on line `lineIdx` (0 for line1, 1 for line2): re-parse the
input if needed, take `substr(start, length)` of the physical line, and
return the `parseFloat` of the substring when it is finite, else the raw
substring.  (JS would throw on a record with fewer lines than `lineIdx`;
`getD` is only ever exercised on records that have the line.) -/
def getFieldOnLine (lineIdx : Nat) (fs : FieldSpec) (tle : TLEInput) : FieldValue :=
  let parsedTLE := parseTLE tle
  let line := parsedTLE.arr.getD lineIdx ""
  let substr := jsSubstr line fs.start fs.length
  match jsParseFloat substr with
  | some q => .num q
  | none => .str substr

/-- The full field table of src/tle.js:19-167 as (line index, column spec)
pairs, in source order: line 1 fields `lineNumber1, satelliteNumber,
classification, intDesignatorYear, intDesignatorLaunchNumber,
intDesignatorPieceOfLaunch, epochYear, epochDay, firstTimeDerivative,
secondTimeDerivative, bstarDrag, numZero, tleSetNumber, checksum1`, then
line 2 fields `lineNumber2, satelliteNumber2, inclination, rightAscension,
eccentricity, perigee, meanAnomaly, meanMotion, revNumberAtEpoch,
checksum2`. -/
def tleFieldList : List (Nat × FieldSpec) :=
  [ (0, ⟨0, 1⟩), (0, ⟨2, 5⟩), (0, ⟨7, 1⟩), (0, ⟨9, 2⟩), (0, ⟨11, 3⟩),
    (0, ⟨14, 3⟩), (0, ⟨18, 2⟩), (0, ⟨20, 12⟩), (0, ⟨33, 11⟩), (0, ⟨44, 8⟩),
    (0, ⟨53, 8⟩), (0, ⟨62, 1⟩), (0, ⟨64, 4⟩), (0, ⟨68, 1⟩),
    (1, ⟨0, 1⟩), (1, ⟨2, 5⟩), (1, ⟨8, 8⟩), (1, ⟨17, 8⟩), (1, ⟨26, 7⟩),
    (1, ⟨34, 8⟩), (1, ⟨43, 8⟩), (1, ⟨52, 11⟩), (1, ⟨63, 5⟩), (1, ⟨68, 1⟩) ]

def getLineNumber1 : TLEInput → FieldValue := getFieldOnLine 0 ⟨0, 1⟩
def getLineNumber2 : TLEInput → FieldValue := getFieldOnLine 1 ⟨0, 1⟩
def getChecksum1 : TLEInput → FieldValue := getFieldOnLine 0 ⟨68, 1⟩
def getChecksum2 : TLEInput → FieldValue := getFieldOnLine 1 ⟨68, 1⟩
def getMeanMotion : TLEInput → FieldValue := getFieldOnLine 1 ⟨52, 11⟩
def getEpochYear : TLEInput → FieldValue := getFieldOnLine 0 ⟨18, 2⟩
def getEpochDay : TLEInput → FieldValue := getFieldOnLine 0 ⟨20, 12⟩
def getBstarDrag : TLEInput → FieldValue := getFieldOnLine 0 ⟨53, 8⟩

/-! ## Structural validation (`isValidTLE`, src/tle.js:225-255) -/

/-- JS strict equality `===` between a field-getter result and an integer
(the expected line number). -/
def fvEqInt : FieldValue → Int → Bool
  | .num q, n => decide (q = (n : ℚ))
  | .str _, _ => false

/-- JS strict equality `===` between a field-getter result and the computed
checksum.  `NaN === x` is false for every `x`. -/
def fvEqJsNum : FieldValue → JsNum → Bool
  | _, .nan => false
  | .num q, .int n => decide (q = (n : ℚ))
  | .str _, .int _ => false

/-- One iteration of the `forEach` body of `isValidTLE`
(src/tle.js:234-252) at index `idx`, assuming `isValid` is still true: the
line-number getter is compared with `index + 1`, the checksum of the line
is computed (this can throw on a line of at most one character), the
checksum getter is compared with it, and the line passes only if both
comparisons hold. -/
def lineCheck (p : ParsedTLE) (idx : Nat) : Except String Bool :=
  let lineNumberIsValid := fvEqInt (getFieldOnLine idx ⟨0, 1⟩ (.parsed p)) ((idx : Int) + 1)
  match tleLineChecksum (p.arr.getD idx "") with
  | .error e => .error e
  | .ok calcCk =>
      .ok (lineNumberIsValid && fvEqJsNum (getFieldOnLine idx ⟨68, 1⟩ (.parsed p)) calcCk)

/-- `isValidTLE` (src/tle.js:225-255): parse, reject records that do not
resolve to exactly 2 lines, then check line numbers and checksums line by
line; once a line fails the remaining iterations are no-ops (so a bad
first line suppresses any checksum exception from the second). -/
def isValidTLE (input : TLEInput) : Except String Bool :=
  let p := parseTLE input
  if p.arr.length ≠ 2 then .ok false
  else
    match lineCheck p 0 with
    | .error e => .error e
    | .ok false => .ok false
    | .ok true => lineCheck p 1

/-- Claim C2's reading of condition (c): the *trailing* character of the
line is a digit equal to the computed checksum.  (Spec-side definition;
the source compares the column-68 field instead.) -/
def trailingChecksumOk (line : String) : Bool :=
  match tleLineChecksum line, line.toList.getLast? with
  | .ok (.int c), some ch => ch.isDigit && decide (((ch.toNat : Int) - 48) = c)
  | _, _ => false

/-- The 70-character first line of the C2 counterexample: digits sum to 10,
so the computed checksum is 0.  The column-68 character is `'0'` (matching
the computed checksum — the source accepts the record), while the trailing
character is `'5'` (the claim's reading rejects it). -/
def cexLine1 : String :=
  String.mk ('1' :: '9' :: (List.replicate 66 ' ' ++ ['0', '5']))

/-- A 69-character valid second line: digit sum 2, checksum character
`'2'` at column 68 (which here *is* the trailing character). -/
def cexLine2 : String :=
  String.mk ('2' :: (List.replicate 67 ' ' ++ ['2']))

/-! ## Claim C3: field extraction and numeric coercion -/

/-- The ISS example line 1 used throughout the spec. -/
def issLine1 : String :=
  "1 25544U 98067A   21275.52719505  .00002182  00000-0  49422-4 0  9992"

/-- The ISS example line 2 used throughout the spec. -/
def issLine2 : String :=
  "2 25544  51.6442  40.7625 0003438 154.0455 306.1756 15.48783287303095"

/-- The canonical record for the ISS example. -/
def issParsed : ParsedTLE := ⟨"Unknown", [issLine1, issLine2]⟩

/-! ## Claim C4: day-of-year to timestamp (`dayOfYearToTimeStamp`,
src/tle.js:501-509) -/

/-- Leap years of the proleptic Gregorian calendar in `[1, y)`. -/
def leapCount (y : Int) : Int :=
  (y - 1).fdiv 4 - (y - 1).fdiv 100 + (y - 1).fdiv 400

/-- Days from 1970-01-01 to `y`-01-01 in the proleptic Gregorian
calendar. -/
def daysToYearStart (y : Int) : Int :=
  365 * (y - 1970) + (leapCount y - leapCount 1970)

/-- Milliseconds of the UTC start instant of year `y`.  This models
`new Date('1/1/' + year + ' 0:0:0 Z').getTime()` for 4-digit years
(1000–9999): ECMAScript `Date` uses the proleptic Gregorian calendar over
UTC, and the trailing `Z` pins the string to UTC.  Outside that range JS
string-date parsing diverges from this value (two-digit years are mapped
into 1900/2000 and out-of-range years give an invalid date), so every
theorem using this definition restricts its year to 4 digits. -/
def yearStartMs (y : Int) : Int := 86400000 * daysToYearStart y

/-- `dayOfYearToTimeStamp` (src/tle.js:501-509): `year || currentYear`
defaults a falsy (zero) year to the current year — made explicit here via
the `nowYear` parameter — then `Math.floor` of start-of-year plus
`(dayOfYear - 1)` days of exactly 86,400,000 ms. -/
def dayOfYearToTimeStamp (nowYear : Int) (dayOfYear : ℚ) (year : Int) : Int :=
  let y := if year = 0 then nowYear else year
  ⌊(yearStartMs y : ℚ) + (dayOfYear - 1) * 86400000⌋

/-! ## PropagationAdapter (`getSatelliteInfo`, src/tle.js:343-429)

The satellite.js library is the external black-box collaborator; it is
modelled as a structure of abstract functions over exact rationals.
`Math.sqrt` and `Math.PI` are the only `Math` primitives used. -/

/-- An ECI/ECF coordinate triple (km), as produced by satellite.js. -/
structure EciVec where
  x : ℚ
  y : ℚ
  z : ℚ
deriving DecidableEq

/-- A geodetic position (radians, radians, km), satellite.js layout. -/
structure GeodeticPos where
  latitude : ℚ
  longitude : ℚ
  height : ℚ
deriving DecidableEq

/-- Observer-relative look angles, satellite.js layout. -/
structure SatLookAngles where
  azimuth : ℚ
  elevation : ℚ
  rangeSat : ℚ
deriving DecidableEq

/-- Position and velocity as returned by `satellite.propagate`. -/
structure PosVel where
  position : EciVec
  velocity : EciVec
deriving DecidableEq

/-- The external satellite.js surface consumed by src/tle.js, plus
`Math.sqrt`.  `propagate` returning `none` models the propagator's error
flag for a degenerate orbit (`satellite.error`, src/tle.js:373). -/
structure SatJS where
  Satrec : Type
  twoline2satrec : String → String → Satrec
  propagate : Satrec → ℚ → Option PosVel
  gstimeFromDate : ℚ → ℚ
  eciToEcf : EciVec → ℚ → EciVec
  geodeticToEcf : GeodeticPos → EciVec
  eciToGeodetic : EciVec → ℚ → GeodeticPos
  ecfToLookAngles : GeodeticPos → EciVec → SatLookAngles
  dopplerFactor : EciVec → EciVec → EciVec → ℚ
  degreesLong : ℚ → ℚ
  degreesLat : ℚ → ℚ
  mathSqrt : ℚ → ℚ

/-- The exact rational value of the double `Math.PI`
(`884279719003555 / 2^48`). -/
def mathPI : ℚ := 884279719003555 / 281474976710656

/-- `radiansToDegrees` (src/tle.js:485-487). -/
def radiansToDegrees (radians : ℚ) : ℚ := radians * (180 / mathPI)

/-- `degreesToRadians` (src/tle.js:489-491). -/
def degreesToRadians (degrees : ℚ) : ℚ := degrees * (mathPI / 180)

/-- The derived observation object built by `getSatelliteInfo`
(src/tle.js:416-424). -/
structure SatInfo where
  lng : ℚ
  lat : ℚ
  elevation : ℚ
  azimuth : ℚ
  range : ℚ
  height : ℚ
  velocity : ℚ
deriving DecidableEq

/-- The memoization cache key (src/tle.js:352): the function name, the two
raw lines, and the *raw* `timestamp`/observer arguments (an absent JS
argument is `none`; the JS template literal interpolates `undefined` for
it).  The JS key is the `-`-joined string of these components; it is
modelled as the component tuple, which identifies keys exactly up to
delimiter collisions that no verified claim exercises. -/
structure CacheKey where
  fnName : String
  l0 : String
  l1 : String
  timestamp : Option ℚ
  observerLat : Option ℚ
  observerLng : Option ℚ
  observerHeight : Option ℚ
deriving DecidableEq

/-- `tle.cache` (src/tle.js:170): assignment-over-lookup modelled as an
association list where the newest binding shadows. -/
def Cache : Type := List (CacheKey × SatInfo)

instance : DecidableEq Cache := by
  unfold Cache
  infer_instance

/-- `this.cache[cacheKey]` lookup; an object stored under the key is
always truthy. -/
def cacheLookup (cache : Cache) (k : CacheKey) : Option SatInfo :=
  match cache with
  | [] => none
  | (k2, v) :: rest => if k2 = k then some v else cacheLookup rest k

/-- JS `x || dflt` on a numeric argument: an absent argument (`undefined`)
and the number 0 are both falsy and fall back to the default. -/
def jsOr (v : Option ℚ) (dflt : ℚ) : ℚ :=
  match v with
  | none => dflt
  | some x => if x = 0 then dflt else x

/-- Default observer latitude (src/tle.js:356). -/
def defaultObserverLat : ℚ := 369613422 / 10000000

/-- Default observer longitude (src/tle.js:357). -/
def defaultObserverLng : ℚ := -1220308 / 10000

/-- Default observer height (src/tle.js:358). -/
def defaultObserverHeight : ℚ := 37 / 100

/-- The cache-miss computation of `getSatelliteInfo` (src/tle.js:365-424):
build the satrec from the two lines, propagate at `time` (throwing on the
propagator's error flag), derive ECF/geodetic frames and look angles,
compute the scalar speed as the Euclidean norm of the ECI velocity, and
assemble the observation object.  (Split out of `getSatelliteInfo` at the
cache-miss boundary purely for proof structure; the two definitions
together are a line-by-line transcription of the JS body.) -/
def computeSatInfo (sat : SatJS) (l0 l1 : String) (time obsLat obsLng obsHeight : ℚ) :
    Except String SatInfo :=
  let satrec := sat.twoline2satrec l0 l1
  match sat.propagate satrec time with
  | none => .error "Error: problematic TLE with unexpected eccentricity"
  | some positionAndVelocity =>
      let positionEci := positionAndVelocity.position
      let velocityEci := positionAndVelocity.velocity
      let observerGd : GeodeticPos :=
        ⟨degreesToRadians obsLat, degreesToRadians obsLng, obsHeight⟩
      let gmst := sat.gstimeFromDate time
      let positionEcf := sat.eciToEcf positionEci gmst
      let observerEcf := sat.geodeticToEcf observerGd
      let positionGd := sat.eciToGeodetic positionEci gmst
      let lookAngles := sat.ecfToLookAngles observerGd positionEcf
      let _dopplerFactor := sat.dopplerFactor observerEcf positionEci velocityEci
      let velocityKmS :=
        sat.mathSqrt (velocityEci.x ^ 2 + velocityEci.y ^ 2 + velocityEci.z ^ 2)
      .ok
        { lng := sat.degreesLong positionGd.longitude
          lat := sat.degreesLat positionGd.latitude
          elevation := radiansToDegrees lookAngles.elevation
          azimuth := radiansToDegrees lookAngles.azimuth
          range := lookAngles.rangeSat
          height := positionGd.height
          velocity := velocityKmS }

/-- The cache key built at src/tle.js:352 from the *raw* arguments: the
function name, the two lines of the parsed record, and the raw
`timestamp`/observer parameters.  In particular it does not mention
`timestampCopy` (the value actually propagated), so it never depends on
the current time. -/
def satCacheKey (tle : TLEInput)
    (timestamp observerLat observerLng observerHeight : Option ℚ) : CacheKey :=
  ⟨"getSatelliteInfo", (parseTLE tle).arr.getD 0 "", (parseTLE tle).arr.getD 1 "",
    timestamp, observerLat, observerLng, observerHeight⟩

/-- `getSatelliteInfo` (src/tle.js:343-429).  `timestamp || Date.now()`
defaults a falsy timestamp to the current time (`now` made explicit); the
cache key is built from the *raw* arguments (in particular the raw
`timestamp`, not `timestampCopy`); a cache hit returns immediately;
otherwise each falsy observer coordinate falls back to the default
observer position, the observation is computed, stored under the key, and
returned. -/
def getSatelliteInfo (sat : SatJS) (cache : Cache) (tle : TLEInput)
    (timestamp observerLat observerLng observerHeight : Option ℚ) (now : ℚ) :
    Except String (SatInfo × Cache) :=
  let timestampCopy := jsOr timestamp now
  let tleArr := (parseTLE tle).arr
  let cacheKey : CacheKey := satCacheKey tle timestamp observerLat observerLng observerHeight
  match cacheLookup cache cacheKey with
  | some hit => .ok (hit, cache)
  | none =>
      match computeSatInfo sat (tleArr.getD 0 "") (tleArr.getD 1 "") timestampCopy
          (jsOr observerLat defaultObserverLat) (jsOr observerLng defaultObserverLng)
          (jsOr observerHeight defaultObserverHeight) with
      | .error e => .error e
      | .ok output => .ok (output, (cacheKey, output) :: cache)

/-- The `{elevation, azimuth, range}` subset returned by
`getLookAngles`. -/
structure LookAnglesOut where
  elevation : ℚ
  azimuth : ℚ
  range : ℚ
deriving DecidableEq

/-- `getLookAngles` (src/tle.js:475-483).  Note that the body calls
`this.getSatelliteInfo(tle, timestamp)` only: the declared `lat`, `lng`
and `height` parameters are accepted but never passed on, so the
observation is always computed for the default observer. -/
def getLookAngles (sat : SatJS) (cache : Cache) (tle : TLEInput)
    (timestamp lat lng height : Option ℚ) (now : ℚ) :
    Except String (LookAnglesOut × Cache) :=
  match getSatelliteInfo sat cache tle timestamp none none none now with
  | .error e => .error e
  | .ok (satInfo, cache2) =>
      .ok (⟨satInfo.elevation, satInfo.azimuth, satInfo.range⟩, cache2)

/-- The `{lat, lng}` pair returned by `getLatLon`. -/
structure LatLon where
  lat : ℚ
  lng : ℚ
deriving DecidableEq

/-- `getLatLon` (src/tle.js:445-458): parse, validate (structure and
checksums) *before* any position computation — an invalid record throws
`'TLE could not be parsed'` and a throwing validation propagates — and
only then call `getSatelliteInfo` on the line array, projecting out
`{lat, lng}`.  The cache is threaded explicitly: every error path returns
it unchanged (in the JS source the only cache write is the final statement
of a successful `getSatelliteInfo` computation). -/
def getLatLon (sat : SatJS) (cache : Cache) (tle : TLEInput)
    (timestamp : Option ℚ) (now : ℚ) : Except String LatLon × Cache :=
  let tleObj := parseTLE tle
  match isValidTLE (.parsed tleObj) with
  | .error e => (.error e, cache)
  | .ok false => (.error "TLE could not be parsed", cache)
  | .ok true =>
      match getSatelliteInfo sat cache (.arr tleObj.arr) timestamp none none none now with
      | .error e => (.error e, cache)
      | .ok (satInfo, cache2) => (.ok ⟨satInfo.lat, satInfo.lng⟩, cache2)

/-! ## DerivedMetrics: ground track sampling

`getGroundTrack` (src/tle.js:519-539) is not syntactically valid
JavaScript: lines 525-529 terminate a `var` declaration with a comma
followed by `const` declarations (a SyntaxError that prevents the whole
module from parsing), `curMarkerTime` is declared `const` but reassigned,
and `getLatLonArr` is referenced without `this.`.  The definitions below
are therefore *Modelled from the spec*: the sampling loop the spec (and
the source comments) describe — sample from 3 hours before `now` to
3 hours after at `stepMS` intervals. -/

/-- Modelled from the spec: the `while (curMarkerTime < endTime)` sampling
loop, collecting the sample times.  The JS loop does not terminate for a
non-positive step, so the step's positivity is folded into the loop
guard. -/
def sampleTimes (endTime step t : Int) : List Int :=
  if h : 0 < step ∧ t < endTime then
    t :: sampleTimes endTime step (t + step)
  else
    []
termination_by (endTime - t).toNat
decreasing_by
  simp_wf
  omega

/-- Modelled from the spec: `getGroundTrack(tle, stepMS)` — default step
60,000 ms (a falsy step also defaults), window from `now - 3h` to
`now + 3h`, one sample per step.  The per-time sampling function
(`getLatLonArr` in the source) is abstracted as `sample`. -/
def getGroundTrackModel {α : Type} (sample : Int → α) (now : Int) (stepMS : Option Int) :
    List α :=
  let defaultStepMS : Int := 1000 * 60 * 1
  let stepMSCopy := match stepMS with
    | none => defaultStepMS
    | some s => if s = 0 then defaultStepMS else s
  let timeOffset : Int := 1000 * 60 * 60 * 3
  let startTime := now - timeOffset
  let endTime := now + timeOffset
  (sampleTimes endTime stepMSCopy startTime).map sample

/-- Spec-side normalization for claim C9: replace an explicit zero
coordinate by an absent one. -/
def omitFalsy (v : Option ℚ) : Option ℚ :=
  match v with
  | none => none
  | some x => if x = 0 then none else some x

/-- A concrete satellite.js instantiation whose look angles depend on the
observer position (the elevation in radians is the observer's geodetic
latitude), used to exhibit the dropped observer arguments of
`getLookAngles`. -/
def satObsDep : SatJS where
  Satrec := String × String
  twoline2satrec := fun a b => (a, b)
  propagate := fun _ _ => some ⟨⟨1, 0, 0⟩, ⟨0, 0, 0⟩⟩
  gstimeFromDate := fun _ => 0
  eciToEcf := fun v _ => v
  geodeticToEcf := fun g => ⟨g.latitude, g.longitude, g.height⟩
  eciToGeodetic := fun v _ => ⟨v.x, v.y, v.z⟩
  ecfToLookAngles := fun g _ => ⟨g.latitude, g.latitude, g.latitude⟩
  dopplerFactor := fun _ _ _ => 0
  degreesLong := fun q => q
  degreesLat := fun q => q
  mathSqrt := fun q => q

/-- A concrete all-zero satellite.js instantiation, used by witnesses. -/
def satZero : SatJS where
  Satrec := Unit
  twoline2satrec := fun _ _ => ()
  propagate := fun _ _ => some ⟨⟨0, 0, 0⟩, ⟨0, 0, 0⟩⟩
  gstimeFromDate := fun _ => 0
  eciToEcf := fun v _ => v
  geodeticToEcf := fun _ => ⟨0, 0, 0⟩
  eciToGeodetic := fun _ _ => ⟨0, 0, 0⟩
  ecfToLookAngles := fun _ _ => ⟨0, 0, 0⟩
  dopplerFactor := fun _ _ _ => 0
  degreesLong := fun _ => 0
  degreesLat := fun _ => 0
  mathSqrt := fun _ => 0

/-- The observation `satZero` produces. -/
def infoZero : SatInfo := ⟨0, 0, 0, 0, 0, 0, 0⟩

/-- The ISS example lines with their trailing checksum characters set to
the values the checksum algorithm actually computes for them (9 and 6),
giving a record that passes `isValidTLE`. -/
def validLine1 : String :=
  "1 25544U 98067A   21275.52719505  .00002182  00000-0  49422-4 0  9999"

def validLine2 : String :=
  "2 25544  51.6442  40.7625 0003438 154.0455 306.1756 15.48783287303096"

def validTLE : TLEInput := .arr [validLine1, validLine2]

/-- The cache key of an omitted-everything `getSatelliteInfo` call on
`validTLE`. -/
def validKey : CacheKey :=
  ⟨"getSatelliteInfo", validLine1, validLine2, none, none, none, none⟩

/-- A 2-line record that parses but fails validation (empty checksum
columns). -/
def badTLE : TLEInput := .arr ["1 x", "2 y"]

/-! ## Theorems -/

/-! ## Claim C8: `parseTLE` is idempotent -/

/-- C8: `parseTLE` is idempotent — re-parsing an already-canonical record
returns it unchanged (the early return fires on the structural presence of
the `arr` field, which is always truthy), hence
`parseTLE (parseTLE x) = parseTLE x` for every accepted input. -/
theorem parseTLE_idempotent :
    (∀ x : TLEInput, parseTLE (.parsed (parseTLE x)) = parseTLE x) ∧
    (∀ p : ParsedTLE, parseTLE (.parsed p) = p) :=
  ⟨fun _ => rfl, fun _ => rfl⟩

/-! ## Claim C1: the checksum algorithm -/

/-- One `reduce` step on an integer accumulator adds exactly the spec's
per-character contribution. -/
theorem checksumStep_int (n : Int) (c : Char) :
    checksumStep (JsNum.int n) c = JsNum.int (n + specContrib c) := by
  by_cases hd : c.isDigit
  · simp [checksumStep, charParseInt, specContrib, hd]
  · by_cases hm : c = '-' <;> simp [checksumStep, charParseInt, specContrib, hd, hm]

/-- Once the `reduce` accumulator holds an integer, the whole fold computes
the spec's sum. -/
theorem checksum_foldl_int (rest : List Char) :
    ∀ n : Int,
      rest.foldl checksumStep (JsNum.int n)
        = .int (rest.foldl (fun s c => s + specContrib c) n) := by
  induction rest with
  | nil => intro n; rfl
  | cons c t ih =>
      intro n
      simp only [List.foldl_cons, checksumStep_int, ih]

/-- C1 counterexample: on the line `"-00"` (two characters remain after the
trailing checksum character is dropped, the first being `'-'`), the
`reduce` accumulator is seeded with `'-'`, which `parseInt` turns into
`NaN`, so `tleLineChecksum` returns `NaN` — while the claim's formula
(each digit its value, `'-'` contributing 1, everything else 0, mod 10)
gives 1.  So the claim is false as stated: it fails on this line, whose
first remaining character is `'-'`. -/
theorem tleLineChecksum_nonDigit_head_nan :
    tleLineChecksum "-00" = .ok JsNum.nan ∧ specChecksumSum "-00" % 10 = 1 ∧
    tleLineChecksum "-00" ≠ .ok (.int (specChecksumSum "-00" % 10)) :=
  ⟨rfl, rfl, fun h => by
    rw [show tleLineChecksum "-00" = .ok JsNum.nan from rfl] at h
    exact JsNum.noConfusion (Except.ok.inj h)⟩

/-- C1 (amended): for every line string with at least one character
remaining after the trailing checksum character is dropped *whose first
remaining character is an ASCII digit* (true of every real TLE line, which
starts with its line number), `tleLineChecksum` returns, modulo 10, the
sum in which each ASCII digit contributes its value, each `'-'` contributes
1 and every other character contributes 0. -/
theorem tleLineChecksum_digit_head_spec (line : String) (c : Char) (rest : List Char)
    (hdrop : line.toList.dropLast = c :: rest) (hdigit : c.isDigit = true) :
    tleLineChecksum line = .ok (.int (specChecksumSum line % 10)) := by
  unfold tleLineChecksum specChecksumSum
  rw [hdrop]
  cases rest with
  | nil => simp [charToNumber, specContrib, hdigit]
  | cons c2 t =>
      have hinit : charParseInt c = some ((c.toNat : Int) - 48) := by
        simp [charParseInt, hdigit]
      simp only [hinit, List.foldl_cons, checksumStep_int, checksum_foldl_int,
        specContrib, hdigit, if_true, zero_add]

/-- Witness for the amended C1 at the concrete line `"10"`. -/
theorem tleLineChecksum_digit_head_spec_witness :
    tleLineChecksum "10" = .ok (.int (specChecksumSum "10" % 10)) :=
  tleLineChecksum_digit_head_spec "10" '1' [] (by decide) (by decide)

/-! ## Claim C2: structural validation -/

/-- Strict equality with an expected integer holds exactly when the getter
returned that number. -/
theorem fvEqInt_eq_true_iff (fv : FieldValue) (n : Int) :
    fvEqInt fv n = true ↔ fv = .num (n : ℚ) := by
  cases fv <;> simp [fvEqInt]

/-- Strict equality with the computed checksum holds exactly when the
checksum is a genuine integer (not `NaN`) and the getter returned that
number. -/
theorem fvEqJsNum_eq_true_iff (fv : FieldValue) (jn : JsNum) :
    fvEqJsNum fv jn = true ↔ ∃ c : Int, jn = .int c ∧ fv = .num (c : ℚ) := by
  cases fv <;> cases jn <;> simp [fvEqJsNum, eq_comm]

/-- A `forEach` iteration throws exactly when the line's checksum
computation throws. -/
theorem lineCheck_error_iff (p : ParsedTLE) (idx : Nat) (e : String) :
    lineCheck p idx = .error e ↔ tleLineChecksum (p.arr.getD idx "") = .error e := by
  unfold lineCheck
  cases h : tleLineChecksum (p.arr.getD idx "") <;> simp

/-- A `forEach` iteration succeeds with `true` exactly when the
line-number field parses to the expected number and the column-68 checksum
field strictly equals the (integer) computed checksum. -/
theorem lineCheck_ok_true_iff (p : ParsedTLE) (idx : Nat) (v : ℚ)
    (hv : (((idx : Int) + 1 : Int) : ℚ) = v) :
    lineCheck p idx = .ok true ↔
      (getFieldOnLine idx ⟨0, 1⟩ (.parsed p) = .num v ∧
       ∃ c : Int, tleLineChecksum (p.arr.getD idx "") = .ok (.int c) ∧
         getFieldOnLine idx ⟨68, 1⟩ (.parsed p) = .num (c : ℚ)) := by
  subst hv
  unfold lineCheck
  cases h : tleLineChecksum (p.arr.getD idx "") with
  | error e => simp
  | ok ck =>
      simp [Bool.and_eq_true, fvEqInt_eq_true_iff, fvEqJsNum_eq_true_iff]

set_option maxRecDepth 8000 in
/-- C2 counterexample: `isValidTLE` compares the *column-68* field with
the computed checksum, not the *trailing* character.  On a 70-character
first line whose column-68 character matches the computed checksum but
whose trailing character does not, the source returns `true` while the
claim ("each line's stored trailing checksum digit equals the checksum
computed for that line") demands `false`.  So the claimed iff is false as
stated. -/
theorem isValidTLE_trailing_digit_counterexample :
    isValidTLE (.arr [cexLine1, cexLine2]) = .ok true ∧
    trailingChecksumOk cexLine1 = false :=
  ⟨by with_unfolding_all rfl, by with_unfolding_all rfl⟩

/-- C2 (amended): for every input accepted by the parser, `isValidTLE`
returns `true` iff the parsed record resolves to exactly 2 lines, the
leading line-number field of line 1 parses to 1 and that of line 2 to 2,
and each line's stored checksum *field* — the one-character substring at
column 68, numerically parsed — equals the checksum computed for that
(trimmed) line.  (For canonical 69-character lines the column-68 character
is the trailing character, so replacing such a line's trailing digit with
a wrong value flips the result to false.)  A line of at most one character
makes the checksum computation throw instead of returning `false`; the
equivalence still holds since the function then does not return `true`. -/
theorem isValidTLE_eq_ok_true_iff (input : TLEInput) :
    isValidTLE input = .ok true ↔
      ((parseTLE input).arr.length = 2 ∧
       getLineNumber1 (.parsed (parseTLE input)) = .num 1 ∧
       getLineNumber2 (.parsed (parseTLE input)) = .num 2 ∧
       (∃ c : Int, tleLineChecksum ((parseTLE input).arr.getD 0 "") = .ok (.int c) ∧
          getChecksum1 (.parsed (parseTLE input)) = .num (c : ℚ)) ∧
       (∃ c : Int, tleLineChecksum ((parseTLE input).arr.getD 1 "") = .ok (.int c) ∧
          getChecksum2 (.parsed (parseTLE input)) = .num (c : ℚ))) := by
  have hmain : isValidTLE input =
      (if (parseTLE input).arr.length ≠ 2 then Except.ok false
       else
        match lineCheck (parseTLE input) 0 with
        | .error e => .error e
        | .ok false => .ok false
        | .ok true => lineCheck (parseTLE input) 1) := rfl
  rw [hmain]
  unfold getLineNumber1 getLineNumber2 getChecksum1 getChecksum2
  by_cases hlen : (parseTLE input).arr.length = 2
  · rw [if_neg (by simp [hlen])]
    cases hc0 : lineCheck (parseTLE input) 0 with
    | error e0 =>
        have hck0 := (lineCheck_error_iff (parseTLE input) 0 e0).mp hc0
        constructor
        · intro h; exact absurd h (by simp)
        · rintro ⟨_, _, _, ⟨c, hcc, _⟩, _⟩
          rw [hck0] at hcc
          exact absurd hcc (by simp)
    | ok b0 =>
        cases b0 with
        | false =>
            have hn0 : ¬ (getFieldOnLine 0 ⟨0, 1⟩ (.parsed (parseTLE input)) = .num 1 ∧
                ∃ c : Int,
                  tleLineChecksum ((parseTLE input).arr.getD 0 "") = .ok (.int c) ∧
                  getFieldOnLine 0 ⟨68, 1⟩ (.parsed (parseTLE input)) = .num (c : ℚ)) := by
              rw [← lineCheck_ok_true_iff (parseTLE input) 0 1 (by norm_num), hc0]
              simp
            constructor
            · intro h; exact absurd h (by simp)
            · rintro ⟨_, h2, _, h4, _⟩
              exact absurd ⟨h2, h4⟩ hn0
        | true =>
            have h0 := (lineCheck_ok_true_iff (parseTLE input) 0 1 (by norm_num)).mp hc0
            rw [lineCheck_ok_true_iff (parseTLE input) 1 2 (by norm_num)]
            constructor
            · rintro ⟨a, b⟩; exact ⟨hlen, h0.1, a, h0.2, b⟩
            · rintro ⟨_, _, a, _, b⟩; exact ⟨a, b⟩
  · rw [if_pos hlen]
    constructor
    · intro h; exact absurd h (by simp)
    · rintro ⟨h1, _⟩; exact absurd h1 hlen

/-- Unfolding of a getter on an already-parsed record. -/
theorem getFieldOnLine_eq (lineIdx : Nat) (fs : FieldSpec) (p : ParsedTLE) :
    getFieldOnLine lineIdx fs (.parsed p) =
      (match jsParseFloat (jsSubstr (p.arr.getD lineIdx "") fs.start fs.length) with
       | some q => FieldValue.num q
       | none => FieldValue.str (jsSubstr (p.arr.getD lineIdx "") fs.start fs.length)) := rfl

set_option maxRecDepth 8000 in
/-- C3 counterexample: the getters use JS `parseFloat`, which parses the
*longest numeric prefix*, not the whole substring.  On the ISS record the
`bstarDrag` substring is `" 49422-4"`, which does not parse as a whole to
a finite number, yet the getter returns the number `49422` instead of the
raw substring — contradicting the claim's "otherwise the raw substring
unchanged" dichotomy based on whole-substring parsing. -/
theorem getBstarDrag_prefix_parse_counterexample :
    jsSubstr issLine1 53 8 = " 49422-4" ∧
    getBstarDrag (.parsed issParsed) = .num 49422 ∧
    strictParseFloat " 49422-4" = none :=
  ⟨by with_unfolding_all rfl, by with_unfolding_all rfl, by with_unfolding_all rfl⟩

/-- C3 (amended): for every named field `(lineIdx, spec)` of the schema
and every canonical record whose corresponding line covers the field's
columns, the getter extracts the raw fixed-width substring at
`[start, start+length)` without trimming (its length is exactly the
field's column count), and returns the JS-`parseFloat` value of that
substring — longest numeric prefix after optional leading whitespace —
when that parse yields a finite number, otherwise the raw substring
unchanged. -/
theorem getField_extract_coerce_spec :
    ∀ lf ∈ tleFieldList, ∀ (p : ParsedTLE) (line : String),
      p.arr.getD lf.1 "" = line →
      lf.2.start + lf.2.length ≤ line.toList.length →
      (jsSubstr line lf.2.start lf.2.length).toList.length = lf.2.length ∧
      getFieldOnLine lf.1 lf.2 (.parsed p) =
        (match jsParseFloat (jsSubstr line lf.2.start lf.2.length) with
         | some q => FieldValue.num q
         | none => FieldValue.str (jsSubstr line lf.2.start lf.2.length)) := by
  intro lf _ p line hline hcov
  constructor
  · have hlist : (jsSubstr line lf.2.start lf.2.length).toList
        = (line.toList.drop lf.2.start).take lf.2.length := rfl
    rw [hlist, List.length_take, List.length_drop]
    omega
  · rw [getFieldOnLine_eq, hline]

set_option maxRecDepth 8000 in
/-- Witness for the amended C3 at the `meanMotion` field of the ISS
record: the raw 11-column substring is extracted and parses to
`15.48783287` (the value the spec's end-to-end scenario expects). -/
theorem getField_extract_coerce_spec_witness :
    (jsSubstr issLine2 52 11).toList.length = 11 ∧
    getMeanMotion (.parsed issParsed) = .num (1548783287 / 100000000) := by
  obtain ⟨h1, h2⟩ :=
    getField_extract_coerce_spec (1, ⟨52, 11⟩) (by decide) issParsed issLine2 rfl (by decide)
  refine ⟨h1, ?_⟩
  show getFieldOnLine 1 ⟨52, 11⟩ (.parsed issParsed) = _
  rw [h2]
  with_unfolding_all rfl

/-- C4 counterexample: at the ISS epoch day `275.52719505` of year 2021
the exact value `start-of-year + (d−1)·86400000` is not an integer number
of milliseconds (it ends in `.32 ms`), and `Math.floor` truncates it, so
the returned timestamp is *not* equal to the claimed exact sum. -/
theorem dayOfYearToTimeStamp_floor_counterexample :
    ((dayOfYearToTimeStamp 2025 (27552719505 / 100000000) 2021 : Int) : ℚ) ≠
      (yearStartMs 2021 : ℚ) + ((27552719505 / 100000000 : ℚ) - 1) * 86400000 := by
  have h1 : dayOfYearToTimeStamp 2025 (27552719505 / 100000000) 2021 = 1633178349652 := by
    with_unfolding_all rfl
  have h2 : yearStartMs 2021 = 1609459200000 := by with_unfolding_all rfl
  rw [h1, h2]
  norm_num

/-- C4 (amended): for every 4-digit year `1000 ≤ y ≤ 9999` (the range on
which `yearStartMs` models the JS date parse) and every fractional day
count, the timestamp equals start-of-year plus the *floor* of
`(d − 1)·86400000` ms — `Math.floor` truncates sub-millisecond fractions.
At `d = 1.0` and `d = 1.5` the product is an integer, so the claimed
exact values (year start, year start + 12 h) hold; see the witness. -/
theorem dayOfYearToTimeStamp_floor_spec (nowYear : Int) (d : ℚ) (y : Int)
    (hylo : 1000 ≤ y) (hyhi : y ≤ 9999) :
    dayOfYearToTimeStamp nowYear d y = yearStartMs y + ⌊(d - 1) * 86400000⌋ := by
  simp only [dayOfYearToTimeStamp]
  rw [if_neg (by omega : ¬ y = 0)]
  exact Int.floor_int_add _ _

/-- Witness for the amended C4 at year 2021: day 1.0 gives exactly the UTC
year start and day 1.5 gives exactly the year start plus 12 hours. -/
theorem dayOfYearToTimeStamp_floor_spec_witness :
    dayOfYearToTimeStamp 2025 1 2021 = yearStartMs 2021 ∧
    dayOfYearToTimeStamp 2025 (3 / 2) 2021 = yearStartMs 2021 + 43200000 := by
  constructor
  · rw [dayOfYearToTimeStamp_floor_spec 2025 1 2021 (by norm_num) (by norm_num)]
    norm_num
  · rw [dayOfYearToTimeStamp_floor_spec 2025 (3 / 2) 2021 (by norm_num) (by norm_num)]
    norm_num

/-! ## Claim C5: `getLookAngles` drops its observer arguments -/

/-- C5: the claim is false of the code and the spec's signature is the
evident intent — `getLookAngles(tle, timestamp, lat, lng, height)` calls
`this.getSatelliteInfo(tle, timestamp)` only (src/tle.js:476), so the
observation is computed for the *default* observer no matter which
observer is passed.  With a propagator whose look angles depend on the
observer (elevation = observer latitude, which survives the
radians/degrees round trip exactly), calling with observer `(10, 20, 1)`
yields elevation `36.9613422` (the default observer's latitude) while
`getSatelliteInfo` at the same `(record, timestamp, observer)` tuple
yields elevation `10`: the claimed subset equality fails. -/
theorem getLookAngles_ignores_observer :
    Except.map (fun p => p.1.elevation)
        (getLookAngles satObsDep [] (.parsed issParsed) (some 1000) (some 10) (some 20)
          (some 1) 0)
      = .ok defaultObserverLat ∧
    Except.map (fun p => p.1.elevation)
        (getSatelliteInfo satObsDep [] (.parsed issParsed) (some 1000) (some 10) (some 20)
          (some 1) 0)
      = .ok 10 ∧
    defaultObserverLat ≠ 10 :=
  ⟨by with_unfolding_all rfl, by with_unfolding_all rfl,
   by norm_num [defaultObserverLat]⟩

/-! ## Claim C6: ground-track sample count -/

/-- The sampling loop takes exactly `⌈(endTime - t) / step⌉` steps (0 when
the window is already exhausted). -/
theorem sampleTimes_length (e s : Int) (hs : 0 < s) (t : Int) :
    (sampleTimes e s t).length = (⌈((e - t : Int) : ℚ) / (s : ℚ)⌉).toNat := by
  rw [sampleTimes]
  by_cases h : t < e
  · rw [dif_pos ⟨hs, h⟩, List.length_cons, sampleTimes_length e s hs (t + s)]
    have hsQ : (0 : ℚ) < (s : ℚ) := by exact_mod_cast hs
    have hcast : ((e - (t + s) : Int) : ℚ) / (s : ℚ) = ((e - t : Int) : ℚ) / (s : ℚ) - 1 := by
      push_cast
      field_simp
      ring
    rw [hcast, Int.ceil_sub_one]
    have hpos : 0 < ⌈((e - t : Int) : ℚ) / (s : ℚ)⌉ := by
      apply Int.ceil_pos.mpr
      apply div_pos _ hsQ
      exact_mod_cast (show (0 : Int) < e - t by omega)
    omega
  · rw [dif_neg (by tauto)]
    have hnp : ⌈((e - t : Int) : ℚ) / (s : ℚ)⌉ ≤ 0 := by
      apply Int.ceil_le.mpr
      rw [Int.cast_zero]
      apply div_nonpos_of_nonpos_of_nonneg
      · exact_mod_cast (show (e - t : Int) ≤ 0 by omega)
      · positivity
    simp only [List.length_nil]
    omega
termination_by (e - t).toNat
decreasing_by
  simp_wf
  omega

/-- C6: the source `getGroundTrack` cannot run at all (its body is a
JavaScript SyntaxError, see `getGroundTrackModel`), but the claim matches
the evident intent: sampling the 6-hour window (3 h before to 3 h after
`now`) at `stepMS` intervals (default 60,000 ms) produces exactly
`⌈21600000 / stepMS⌉` ordered samples, 360 with the default step. -/
theorem groundTrackModel_sample_count {α : Type} (sample : Int → α) (now : Int)
    (stepMS : Int) (hs : 0 < stepMS) :
    (getGroundTrackModel sample now (some stepMS)).length
      = (⌈(21600000 : ℚ) / (stepMS : ℚ)⌉).toNat ∧
    (getGroundTrackModel sample now none).length = 360 := by
  have harg : (now + 1000 * 60 * 60 * 3) - (now - 1000 * 60 * 60 * 3) = (21600000 : Int) := by
    ring
  constructor
  · simp only [getGroundTrackModel, List.length_map]
    rw [if_neg (by omega : ¬ stepMS = 0), sampleTimes_length _ _ hs, harg]
    norm_num
  · simp only [getGroundTrackModel, List.length_map]
    rw [sampleTimes_length _ _ (by norm_num : (0 : Int) < 1000 * 60 * 1), harg]
    norm_num
    rfl

/-- Witness for C6 at the default step: exactly 360 samples. -/
theorem groundTrackModel_sample_count_witness :
    (getGroundTrackModel (fun t : Int => t) 0 (some 60000)).length = 360 := by
  rw [(groundTrackModel_sample_count (fun t : Int => t) 0 60000 (by norm_num)).1]
  norm_num
  rfl

/-! ## Claim C7: `getLatLon` validates before computing -/

/-- C7: `getLatLon` validates the record before any position computation.
A record that fails validation produces the `'TLE could not be parsed'`
error with the cache unchanged and no partial result; a record whose
validation itself throws propagates that error, again with the cache
unchanged; a valid record returns exactly the `{lat, lng}` fields of the
observation `getSatelliteInfo` produces for the record's line array and
the given timestamp, together with that call's cache. -/
theorem getLatLon_validates_first (sat : SatJS) (cache : Cache) (tle : TLEInput)
    (timestamp : Option ℚ) (now : ℚ) :
    (isValidTLE (.parsed (parseTLE tle)) = .ok false →
       getLatLon sat cache tle timestamp now = (.error "TLE could not be parsed", cache)) ∧
    (∀ e, isValidTLE (.parsed (parseTLE tle)) = .error e →
       getLatLon sat cache tle timestamp now = (.error e, cache)) ∧
    (∀ info cache2, isValidTLE (.parsed (parseTLE tle)) = .ok true →
       getSatelliteInfo sat cache (.arr (parseTLE tle).arr) timestamp none none none now
         = .ok (info, cache2) →
       getLatLon sat cache tle timestamp now = (.ok ⟨info.lat, info.lng⟩, cache2)) := by
  refine ⟨?_, ?_, ?_⟩
  · intro h
    simp only [getLatLon, h]
  · intro e h
    simp only [getLatLon, h]
  · intro info cache2 hv hs
    simp only [getLatLon, hv, hs]

set_option maxRecDepth 8000 in
/-- Witness for C7: a failing record yields the validation error and
leaves the (empty) cache empty; the corrected ISS record yields the
`{lat, lng}` of the computed observation and the updated cache. -/
theorem getLatLon_validates_first_witness :
    getLatLon satZero [] badTLE none 0 = (.error "TLE could not be parsed", []) ∧
    getLatLon satZero [] validTLE none 0 = (.ok ⟨0, 0⟩, [(validKey, infoZero)]) := by
  constructor
  · exact (getLatLon_validates_first satZero [] badTLE none 0).1
      (by with_unfolding_all rfl)
  · exact (getLatLon_validates_first satZero [] validTLE none 0).2.2 infoZero
      [(validKey, infoZero)] (by with_unfolding_all rfl) (by with_unfolding_all rfl)

/-! ## Claim C9: falsy observer coordinates fall back to the default -/

/-- Normalizing an explicit zero to an absent argument does not change the
`||`-defaulted value. -/
theorem jsOr_omitFalsy (v : Option ℚ) (d : ℚ) : jsOr (omitFalsy v) d = jsOr v d := by
  cases v with
  | none => rfl
  | some x =>
      by_cases hx : x = 0 <;> simp [omitFalsy, jsOr, hx]

/-- Defaulting against the default itself is the identity. -/
theorem jsOr_some_self (d : ℚ) : jsOr (some d) d = jsOr none d := by
  simp [jsOr, ite_self]

/-- C9: passing `0` for an observer coordinate yields the same observation
as omitting it — each falsy coordinate is replaced by the corresponding
component of the default observer position `(36.9613422, -122.0308,
0.370)` rather than being used as given.  (Stated on a fresh cache; the
cache *keys* of the two calls differ, but the computed observation is
identical.) -/
theorem getSatelliteInfo_falsy_observer_defaults (sat : SatJS) (tle : TLEInput)
    (timestamp a b c : Option ℚ) (now : ℚ) :
    Except.map Prod.fst (getSatelliteInfo sat [] tle timestamp a b c now)
      = Except.map Prod.fst
          (getSatelliteInfo sat [] tle timestamp (omitFalsy a) (omitFalsy b) (omitFalsy c)
            now) ∧
    Except.map Prod.fst (getSatelliteInfo sat [] tle timestamp none none none now)
      = Except.map Prod.fst
          (getSatelliteInfo sat [] tle timestamp (some defaultObserverLat)
            (some defaultObserverLng) (some defaultObserverHeight) now) := by
  constructor
  · simp only [getSatelliteInfo, cacheLookup]
    rw [jsOr_omitFalsy, jsOr_omitFalsy, jsOr_omitFalsy]
    cases hc : computeSatInfo sat ((parseTLE tle).arr.getD 0 "")
        ((parseTLE tle).arr.getD 1 "") (jsOr timestamp now) (jsOr a defaultObserverLat)
        (jsOr b defaultObserverLng) (jsOr c defaultObserverHeight) <;> rfl
  · simp only [getSatelliteInfo, cacheLookup]
    rw [jsOr_some_self, jsOr_some_self, jsOr_some_self]
    cases hc : computeSatInfo sat ((parseTLE tle).arr.getD 0 "")
        ((parseTLE tle).arr.getD 1 "") (jsOr timestamp now)
        (jsOr none defaultObserverLat) (jsOr none defaultObserverLng)
        (jsOr none defaultObserverHeight) <;> rfl

/-! ## Claim C10: the cache key uses the raw timestamp -/

/-- C10: the cache key is built from the raw `timestamp` argument, not
from the value actually propagated, so every call with an omitted
timestamp shares one key per (record, observer): once a first
omitted-timestamp call has returned (at current time `now1`), any later
omitted-timestamp call on the same record, observer and resulting cache
returns the first call's observation and leaves the cache unchanged —
regardless of the current time `now2` at which it runs. -/
theorem getSatelliteInfo_cache_key_ignores_now (sat : SatJS) (cache : Cache)
    (tle : TLEInput) (a b c : Option ℚ) (now1 now2 : ℚ) (info : SatInfo) (cache1 : Cache)
    (h : getSatelliteInfo sat cache tle none a b c now1 = .ok (info, cache1)) :
    getSatelliteInfo sat cache1 tle none a b c now2 = .ok (info, cache1) := by
  simp only [getSatelliteInfo] at h ⊢
  split at h
  next hit hl =>
      simp only [Except.ok.injEq, Prod.mk.injEq] at h
      obtain ⟨rfl, rfl⟩ := h
      rw [hl]
  next hl =>
      split at h
      next e hc => simp at h
      next output hc =>
          simp only [Except.ok.injEq, Prod.mk.injEq] at h
          obtain ⟨rfl, rfl⟩ := h
          have hhit : cacheLookup ((satCacheKey tle none a b c, output) :: cache)
              (satCacheKey tle none a b c) = some output := by
            simp [cacheLookup]
          rw [hhit]

/-- Witness for C10: after a first omitted-timestamp call at current time
5 populates the cache, the same call at current time 99 returns the
cached observation unchanged. -/
theorem getSatelliteInfo_cache_key_ignores_now_witness :
    getSatelliteInfo satZero [(validKey, infoZero)] validTLE none none none none 99
      = .ok (infoZero, [(validKey, infoZero)]) :=
  getSatelliteInfo_cache_key_ignores_now satZero [] validTLE none none none 5 99 infoZero
    [(validKey, infoZero)] (by with_unfolding_all rfl)
